import Mathlib

/-!
# Verification of the QuickCrop backend crop pipeline

Shallow embedding of the algorithmic core of the QuickCrop photo-cropping
service (`backend/services/crop_calculator.py`, `crop_processor.py`,
`detection.py`, `heuristics/ema_calculator.py`, `heuristics/database.py`,
`utils/file_utils.py`), together with theorems settling the specification
claims about it.

Modelling conventions:
* Python `int` values become `ℤ`; Python `float` values become `ℚ`
  (exact rational arithmetic in place of IEEE doubles; every float
  constant in the sources — `3.2`, `0.15`, `0.145`, `4/5`, `0.138`,
  `17/20`, `0.161`, `0.5`, `2.0` — is a small decimal rational, and the
  properties proved only use coarse magnitude facts that are insensitive
  to the rounding of intermediate products).
* Python `int(x)` (truncation toward zero) becomes `Int.tdiv` applied to
  a scaled product; Python floor division `//` becomes `Int.fdiv`.
* Stateful code (SQLite rows, in-memory dicts) becomes explicit state
  passing over `Option`/`List` states.
-/

namespace QuickCrop

/-- The five crop preset types (`services/presets.py`, enum `PresetType`). -/
inductive PresetType where
  | headshot
  | avatar
  | thumbnail
  | website
  | full_body
  deriving DecidableEq, Repr

/-- Detected face bounding box (`services/crop_calculator.py`, `FaceBox`). -/
structure FaceBox where
  x : ℤ
  y : ℤ
  width : ℤ
  height : ℤ
  deriving DecidableEq, Repr

/-- `FaceBox.center_x`: `self.x + self.width // 2` (Python floor division). -/
def FaceBox.center_x (f : FaceBox) : ℤ :=
  f.x + Int.fdiv f.width 2

/-- `FaceBox.center_y`: `self.y + self.height // 2`. -/
def FaceBox.center_y (f : FaceBox) : ℤ :=
  f.y + Int.fdiv f.height 2

/-- Calculated crop region (`services/crop_calculator.py`, `CropBox`). -/
structure CropBox where
  x : ℤ
  y : ℤ
  width : ℤ
  height : ℤ
  preset_type : PresetType
  deriving DecidableEq, Repr

/-- `CropBox.adjust_to_bounds`: clamp the origin into the image, then shrink
the size if the box still does not fit from the clamped origin. -/
def CropBox.adjust_to_bounds (b : CropBox) (image_width image_height : ℤ) : CropBox :=
  let x := max 0 (min b.x (image_width - b.width))
  let y := max 0 (min b.y (image_height - b.height))
  let width := min b.width (image_width - x)
  let height := min b.height (image_height - y)
  { x := x, y := y, width := width, height := height, preset_type := b.preset_type }

/-- Unfolding equation for `CropBox.adjust_to_bounds`. -/
theorem CropBox.adjust_to_bounds_def (b : CropBox) (image_width image_height : ℤ) :
    b.adjust_to_bounds image_width image_height =
      { x := max 0 (min b.x (image_width - b.width)),
        y := max 0 (min b.y (image_height - b.height)),
        width := min b.width (image_width - max 0 (min b.x (image_width - b.width))),
        height := min b.height (image_height - max 0 (min b.y (image_height - b.height))),
        preset_type := b.preset_type } := rfl

/-- `validate_crop_bounds` (`services/crop_calculator.py`): sequential checks
returning `(is_valid, error_message)`. -/
def validate_crop_bounds (crop : CropBox) (image_width image_height : ℤ) :
    Bool × Option String :=
  if crop.x < 0 then (false, some "Crop x position is negative")
  else if crop.y < 0 then (false, some "Crop y position is negative")
  else if image_width < crop.x + crop.width then (false, some "Crop extends beyond image width")
  else if image_height < crop.y + crop.height then (false, some "Crop extends beyond image height")
  else if crop.width ≤ 0 then (false, some "Crop width must be positive")
  else if crop.height ≤ 0 then (false, some "Crop height must be positive")
  else (true, none)

/-- `validate_crop_bounds` succeeds exactly when the six checked inequalities hold. -/
theorem validate_crop_bounds_eq_true_iff (crop : CropBox) (image_width image_height : ℤ) :
    validate_crop_bounds crop image_width image_height = (true, none) ↔
      0 ≤ crop.x ∧ 0 ≤ crop.y ∧ crop.x + crop.width ≤ image_width ∧
        crop.y + crop.height ≤ image_height ∧ 0 < crop.width ∧ 0 < crop.height := by
  unfold validate_crop_bounds
  split_ifs <;> simp <;> omega

/-- C3: after `adjust_to_bounds` the box satisfies the bounds invariant
(`0 ≤ x`, `0 ≤ y`, `x+width ≤ image_width`, `y+height ≤ image_height`), and the
adjustment corrects position before size: whenever the requested size fits the
image dimension, the origin is clamped into `[0, dimension − size]` and the
size is left unchanged; only when the size cannot fit at all is it shrunk (to
the full image dimension, from origin `0`). -/
theorem adjust_to_bounds_invariant_position_first (b : CropBox) (image_width image_height : ℤ) :
    0 ≤ (b.adjust_to_bounds image_width image_height).x ∧
    0 ≤ (b.adjust_to_bounds image_width image_height).y ∧
    (b.adjust_to_bounds image_width image_height).x +
        (b.adjust_to_bounds image_width image_height).width ≤ image_width ∧
    (b.adjust_to_bounds image_width image_height).y +
        (b.adjust_to_bounds image_width image_height).height ≤ image_height ∧
    (b.width ≤ image_width →
      (b.adjust_to_bounds image_width image_height).x ≤ image_width - b.width ∧
      (b.adjust_to_bounds image_width image_height).width = b.width) ∧
    (b.height ≤ image_height →
      (b.adjust_to_bounds image_width image_height).y ≤ image_height - b.height ∧
      (b.adjust_to_bounds image_width image_height).height = b.height) ∧
    (image_width < b.width →
      (b.adjust_to_bounds image_width image_height).x = 0 ∧
      (b.adjust_to_bounds image_width image_height).width = image_width) ∧
    (image_height < b.height →
      (b.adjust_to_bounds image_width image_height).y = 0 ∧
      (b.adjust_to_bounds image_width image_height).height = image_height) := by
  simp only [CropBox.adjust_to_bounds_def]
  omega

/-- C9: `adjust_to_bounds` is idempotent on boxes with non-negative size in a
positive image. -/
theorem adjust_to_bounds_idempotent (b : CropBox) (image_width image_height : ℤ)
    (hbw : 0 ≤ b.width) (hbh : 0 ≤ b.height)
    (hw : 0 < image_width) (hh : 0 < image_height) :
    (b.adjust_to_bounds image_width image_height).adjust_to_bounds image_width image_height =
      b.adjust_to_bounds image_width image_height := by
  simp only [CropBox.adjust_to_bounds_def, CropBox.mk.injEq, and_true, eq_self_iff_true]
  omega

/-- Witness for C9: a concrete 50×50 box hanging off the top-left corner of a
40×40 image is adjusted once and for all. -/
theorem adjust_to_bounds_idempotent_witness :
    ((CropBox.mk (-5) (-5) 50 50 .headshot).adjust_to_bounds 40 40).adjust_to_bounds 40 40 =
      (CropBox.mk (-5) (-5) 50 50 .headshot).adjust_to_bounds 40 40 :=
  adjust_to_bounds_idempotent (CropBox.mk (-5) (-5) 50 50 .headshot) 40 40
    (by decide) (by decide) (by decide) (by decide)

/-- If the truncating division's divisor is positive and no larger than the
dividend, the quotient is positive. -/
theorem tdiv_pos {a b : ℤ} (hb : 0 < b) (hba : b ≤ a) : 0 < Int.tdiv a b := by
  rw [Int.tdiv_eq_ediv (le_trans hb.le hba) hb.le]
  calc 0 < 1 := one_pos
    _ = b / b := (Int.ediv_self (by omega)).symm
    _ ≤ a / b := Int.ediv_le_ediv hb hba

/-- The clamped crop size of `HeadshotCropCalculator.calculate`
(`services/crop_calculator.py`): `int(max(face.width, face.height) * 3.2)`,
raised to `min(1000, min(w, h))`, capped at `min(w, h)`. -/
def headshot_crop_size (face : FaceBox) (image_width image_height : ℤ) : ℤ :=
  min (max (Int.tdiv (max face.width face.height * 16) 5)
           (min 1000 (min image_width image_height)))
      (min image_width image_height)

/-- `HeadshotCropCalculator.calculate`: square crop centered on the face with
14.5% head clearance (`0.145 = 29/200`, `0.15 = 3/20`), adjusted to bounds. -/
def headshot_calculate (face : FaceBox) (image_width image_height : ℤ)
    (pt : PresetType) : CropBox :=
  let crop_size := headshot_crop_size face image_width image_height
  let estimated_head_top := face.y - Int.tdiv (face.height * 3) 20
  let target_head_position := Int.tdiv (crop_size * 29) 200
  let crop_y0 := estimated_head_top - target_head_position
  let crop_y := if crop_y0 < 0 then 0
    else if image_height < crop_y0 + crop_size then image_height - crop_size
    else crop_y0
  let crop_x := face.center_x - Int.fdiv crop_size 2
  (CropBox.mk crop_x crop_y crop_size crop_size pt).adjust_to_bounds image_width image_height

/-- The `(crop_width, crop_height)` pair computed by
`WebsiteCropCalculator.calculate` before vertical placement: 4:5 portrait
(`aspect_ratio = 4/5`), height seeded from `int(face.height * 4.0)`, raised to
`min(1200, image_height)`, then capped sequentially against image width
(`int(crop_width / 0.8) = ⌊w·5/4⌋`) and image height. -/
def website_crop_dims (face : FaceBox) (image_width image_height : ℤ) : ℤ × ℤ :=
  let crop_height0 := face.height * 4
  let crop_width0 := Int.tdiv (crop_height0 * 4) 5
  let min_height := min 1200 image_height
  let crop_height1 := if crop_height0 < min_height then min_height else crop_height0
  let crop_width1 := if crop_height0 < min_height then Int.tdiv (crop_height1 * 4) 5 else crop_width0
  let crop_width2 := if image_width < crop_width1 then image_width else crop_width1
  let crop_height2 := if image_width < crop_width1 then Int.tdiv (crop_width2 * 5) 4 else crop_height1
  let crop_height3 := if image_height < crop_height2 then image_height else crop_height2
  let crop_width3 := if image_height < crop_height2 then Int.tdiv (crop_height3 * 4) 5 else crop_width2
  (crop_width3, crop_height3)

/-- `WebsiteCropCalculator.calculate`: 4:5 portrait crop with 13.8% head
clearance (`0.138 = 69/500`), adjusted to bounds. -/
def website_calculate (face : FaceBox) (image_width image_height : ℤ)
    (pt : PresetType) : CropBox :=
  let crop_width := (website_crop_dims face image_width image_height).1
  let crop_height := (website_crop_dims face image_width image_height).2
  let estimated_head_top := face.y - Int.tdiv (face.height * 3) 20
  let target_head_clearance := Int.tdiv (crop_height * 69) 500
  let crop_y0 := estimated_head_top - target_head_clearance
  let crop_y := if crop_y0 < 0 then 0
    else if image_height < crop_y0 + crop_height then image_height - crop_height
    else crop_y0
  let crop_x := face.center_x - Int.fdiv crop_width 2
  (CropBox.mk crop_x crop_y crop_width crop_height pt).adjust_to_bounds image_width image_height

/-- The `(crop_width, crop_height)` pair computed by
`FullBodyCropCalculator.calculate` before vertical placement: 17:20 portrait,
height seeded from `int(face.height * 5.0)`, raised to `min(2000, image_height)`,
then capped sequentially against image width (`int(crop_width / 0.85) = ⌊w·20/17⌋`)
and image height. -/
def full_body_crop_dims (face : FaceBox) (image_width image_height : ℤ) : ℤ × ℤ :=
  let crop_height0 := face.height * 5
  let crop_width0 := Int.tdiv (crop_height0 * 17) 20
  let min_height := min 2000 image_height
  let crop_height1 := if crop_height0 < min_height then min_height else crop_height0
  let crop_width1 := if crop_height0 < min_height then Int.tdiv (crop_height1 * 17) 20 else crop_width0
  let crop_width2 := if image_width < crop_width1 then image_width else crop_width1
  let crop_height2 := if image_width < crop_width1 then Int.tdiv (crop_width2 * 20) 17 else crop_height1
  let crop_height3 := if image_height < crop_height2 then image_height else crop_height2
  let crop_width3 := if image_height < crop_height2 then Int.tdiv (crop_height3 * 17) 20 else crop_width2
  (crop_width3, crop_height3)

/-- `FullBodyCropCalculator.calculate`: 17:20 portrait crop with 16.1% head
clearance (`0.161 = 161/1000`), adjusted to bounds. -/
def full_body_calculate (face : FaceBox) (image_width image_height : ℤ)
    (pt : PresetType) : CropBox :=
  let crop_width := (full_body_crop_dims face image_width image_height).1
  let crop_height := (full_body_crop_dims face image_width image_height).2
  let estimated_head_top := face.y - Int.tdiv (face.height * 3) 20
  let target_head_clearance := Int.tdiv (crop_height * 161) 1000
  let crop_y0 := estimated_head_top - target_head_clearance
  let crop_y := if crop_y0 < 0 then 0
    else if image_height < crop_y0 + crop_height then image_height - crop_height
    else crop_y0
  let crop_x := face.center_x - Int.fdiv crop_width 2
  (CropBox.mk crop_x crop_y crop_width crop_height pt).adjust_to_bounds image_width image_height

/-- `calculate_crop` through `CropCalculatorFactory`: headshot, avatar and
thumbnail share `HeadshotCropCalculator`; website and full_body get their own
calculators (`CropCalculatorFactory._calculators`). -/
def calculate_crop (preset_type : PresetType) (face : FaceBox)
    (image_width image_height : ℤ) : CropBox :=
  match preset_type with
  | .headshot => headshot_calculate face image_width image_height .headshot
  | .avatar => headshot_calculate face image_width image_height .avatar
  | .thumbnail => headshot_calculate face image_width image_height .thumbnail
  | .website => website_calculate face image_width image_height .website
  | .full_body => full_body_calculate face image_width image_height .full_body

/-- `adjust_to_bounds` yields a crop accepted by `validate_crop_bounds`
whenever the image and the requested size are positive. -/
theorem validate_adjust_of_pos (b : CropBox) (image_width image_height : ℤ)
    (hw : 0 < image_width) (hh : 0 < image_height)
    (hbw : 0 < b.width) (hbh : 0 < b.height) :
    validate_crop_bounds (b.adjust_to_bounds image_width image_height)
      image_width image_height = (true, none) := by
  rw [validate_crop_bounds_eq_true_iff]
  simp only [CropBox.adjust_to_bounds_def]
  omega

/-- The headshot crop size is positive and fits both image dimensions. -/
theorem headshot_crop_size_bounds (face : FaceBox) (image_width image_height : ℤ)
    (hw : 0 < image_width) (hh : 0 < image_height) :
    0 < headshot_crop_size face image_width image_height ∧
      headshot_crop_size face image_width image_height ≤ image_width ∧
      headshot_crop_size face image_width image_height ≤ image_height := by
  unfold headshot_crop_size
  omega

/-- Both website crop dimensions are positive when the image is at least one
pixel wide and two pixels tall. -/
theorem website_crop_dims_pos (face : FaceBox) (image_width image_height : ℤ)
    (hw : 0 < image_width) (hh : 2 ≤ image_height) :
    0 < (website_crop_dims face image_width image_height).1 ∧
      0 < (website_crop_dims face image_width image_height).2 := by
  unfold website_crop_dims
  dsimp only
  split_ifs <;> refine ⟨?_, ?_⟩ <;>
    first
      | omega
      | exact tdiv_pos (by omega) (by omega)

/-- Both full-body crop dimensions are positive when the image is at least one
pixel wide and two pixels tall. -/
theorem full_body_crop_dims_pos (face : FaceBox) (image_width image_height : ℤ)
    (hw : 0 < image_width) (hh : 2 ≤ image_height) :
    0 < (full_body_crop_dims face image_width image_height).1 ∧
      0 < (full_body_crop_dims face image_width image_height).2 := by
  unfold full_body_crop_dims
  dsimp only
  split_ifs <;> refine ⟨?_, ?_⟩ <;>
    first
      | omega
      | exact tdiv_pos (by omega) (by omega)

/-- The headshot calculator always returns a crop within bounds. -/
theorem headshot_calculate_valid (face : FaceBox) (image_width image_height : ℤ)
    (pt : PresetType) (hw : 0 < image_width) (hh : 0 < image_height) :
    validate_crop_bounds (headshot_calculate face image_width image_height pt)
      image_width image_height = (true, none) := by
  obtain ⟨h1, h2, h3⟩ := headshot_crop_size_bounds face image_width image_height hw hh
  exact validate_adjust_of_pos _ _ _ hw hh h1 h1

/-- The website calculator returns a crop within bounds for images at least
two pixels tall. -/
theorem website_calculate_valid (face : FaceBox) (image_width image_height : ℤ)
    (pt : PresetType) (hw : 0 < image_width) (hh : 2 ≤ image_height) :
    validate_crop_bounds (website_calculate face image_width image_height pt)
      image_width image_height = (true, none) := by
  obtain ⟨h1, h2⟩ := website_crop_dims_pos face image_width image_height hw hh
  exact validate_adjust_of_pos _ _ _ hw (by omega) h1 h2

/-- The full-body calculator returns a crop within bounds for images at least
two pixels tall. -/
theorem full_body_calculate_valid (face : FaceBox) (image_width image_height : ℤ)
    (pt : PresetType) (hw : 0 < image_width) (hh : 2 ≤ image_height) :
    validate_crop_bounds (full_body_calculate face image_width image_height pt)
      image_width image_height = (true, none) := by
  obtain ⟨h1, h2⟩ := full_body_crop_dims_pos face image_width image_height hw hh
  exact validate_adjust_of_pos _ _ _ hw (by omega) h1 h2

/-- C1 counterexample: in a 10×1 image the website calculator caps the crop
height at the 1-pixel image height and recomputes `int(1 * 0.8) = 0` as the
crop width, so `calculate_crop` returns a zero-width crop that
`validate_crop_bounds` rejects, refuting the claim for images of positive but
1-pixel height. -/
theorem calculate_crop_bounds_counterexample :
    validate_crop_bounds (calculate_crop .website (FaceBox.mk 0 0 100 120) 10 1) 10 1 ≠
      (true, none) := by decide

/-- C1 (amended): for the headshot, avatar and thumbnail presets every face box
and every image of positive dimensions yields a crop accepted by
`validate_crop_bounds`; for the website and full_body presets the same holds
whenever the image is additionally at least two pixels tall. -/
theorem calculate_crop_in_bounds (preset_type : PresetType) (face : FaceBox)
    (image_width image_height : ℤ) (hw : 0 < image_width) (hh : 0 < image_height)
    (hh2 : preset_type = .website ∨ preset_type = .full_body → 2 ≤ image_height) :
    validate_crop_bounds (calculate_crop preset_type face image_width image_height)
      image_width image_height = (true, none) := by
  cases preset_type with
  | headshot => exact headshot_calculate_valid face image_width image_height _ hw hh
  | avatar => exact headshot_calculate_valid face image_width image_height _ hw hh
  | thumbnail => exact headshot_calculate_valid face image_width image_height _ hw hh
  | website =>
      exact website_calculate_valid face image_width image_height _ hw (hh2 (Or.inl rfl))
  | full_body =>
      exact full_body_calculate_valid face image_width image_height _ hw (hh2 (Or.inr rfl))

/-- Witness for the amended C1: a face at the top-left corner of a 1000×1000
image, website preset. -/
theorem calculate_crop_in_bounds_witness :
    validate_crop_bounds (calculate_crop .website (FaceBox.mk 0 0 100 120) 1000 1000)
      1000 1000 = (true, none) :=
  calculate_crop_in_bounds .website (FaceBox.mk 0 0 100 120) 1000 1000
    (by decide) (by decide) (fun _ => by decide)

/-- The headshot calculator's crop is square: `adjust_to_bounds` leaves both
dimensions at the (already fitting) crop size. -/
theorem headshot_calculate_square (face : FaceBox) (image_width image_height : ℤ)
    (pt : PresetType) (hw : 0 < image_width) (hh : 0 < image_height) :
    (headshot_calculate face image_width image_height pt).width =
      (headshot_calculate face image_width image_height pt).height := by
  obtain ⟨h1, h2, h3⟩ := headshot_crop_size_bounds face image_width image_height hw hh
  unfold headshot_calculate
  simp only [CropBox.adjust_to_bounds_def]
  omega

/-- C5: for the three square presets (headshot, avatar, thumbnail),
`calculate_crop` returns a crop whose width equals its height, and this
survives the final bounds adjustment. -/
theorem calculate_crop_square (preset_type : PresetType) (face : FaceBox)
    (image_width image_height : ℤ)
    (hpt : preset_type = .headshot ∨ preset_type = .avatar ∨ preset_type = .thumbnail)
    (hw : 0 < image_width) (hh : 0 < image_height) :
    (calculate_crop preset_type face image_width image_height).width =
      (calculate_crop preset_type face image_width image_height).height := by
  rcases hpt with rfl | rfl | rfl <;>
    exact headshot_calculate_square face image_width image_height _ hw hh

/-- Witness for C5: headshot crop of a corner face in a 1000×800 image is
square. -/
theorem calculate_crop_square_witness :
    (calculate_crop .headshot (FaceBox.mk 900 680 100 120) 1000 800).width =
      (calculate_crop .headshot (FaceBox.mk 900 680 100 120) 1000 800).height :=
  calculate_crop_square .headshot (FaceBox.mk 900 680 100 120) 1000 800
    (Or.inl rfl) (by decide) (by decide)

/-- A face detection as consumed by the dual-model matcher
(`services/detection.py`): the relative bounding box `(xmin, ymin, width,
height)` and the confidence score. `relative_bbox_tuple` and
`detection_score` below model the accessors applied to MediaPipe detection
objects. -/
structure Detection where
  bbox : ℚ × ℚ × ℚ × ℚ
  score : ℚ
  deriving DecidableEq

/-- `detection_score`: the confidence score of a detection. -/
def detection_score (d : Detection) : ℚ := d.score

/-- `relative_bbox_tuple`: `(xmin, ymin, width, height)` of a detection. -/
def relative_bbox_tuple (d : Detection) : ℚ × ℚ × ℚ × ℚ := d.bbox

/-- `compute_iou` (`services/detection.py`): intersection over union of two
relative bounding boxes, with clamped intersection sides, clamped box areas,
and a guarded division (non-positive union yields 0). -/
def compute_iou (box_a box_b : ℚ × ℚ × ℚ × ℚ) : ℚ :=
  match box_a, box_b with
  | (ax, ay, aw, ah), (bx, byv, bw, bh) =>
    let a_x2 := ax + aw
    let a_y2 := ay + ah
    let b_x2 := bx + bw
    let b_y2 := byv + bh
    let inter_x1 := max ax bx
    let inter_y1 := max ay byv
    let inter_x2 := min a_x2 b_x2
    let inter_y2 := min a_y2 b_y2
    let inter_w := max 0 (inter_x2 - inter_x1)
    let inter_h := max 0 (inter_y2 - inter_y1)
    let inter_area := inter_w * inter_h
    let area_a := max 0 aw * max 0 ah
    let area_b := max 0 bw * max 0 bh
    let denom := area_a + area_b - inter_area
    if denom ≤ 0 then 0 else inter_area / denom

/-- C10: for every pair of boxes, including degenerate ones, `compute_iou`
returns a value in `[0, 1]`: the division is guarded, the intersection area
never exceeds the union area, and non-positive box sides contribute zero
area. -/
theorem compute_iou_mem_unit_interval (box_a box_b : ℚ × ℚ × ℚ × ℚ) :
    0 ≤ compute_iou box_a box_b ∧ compute_iou box_a box_b ≤ 1 := by
  obtain ⟨ax, ay, aw, ah⟩ := box_a
  obtain ⟨bx, byv, bw, bh⟩ := box_b
  unfold compute_iou
  dsimp only
  set iw := max (0:ℚ) (min (ax + aw) (bx + bw) - max ax bx) with hiw
  set ih := max (0:ℚ) (min (ay + ah) (byv + bh) - max ay byv) with hih
  split_ifs with hd
  · exact ⟨le_refl 0, zero_le_one⟩
  · push_neg at hd
    have hiw0 : 0 ≤ iw := le_max_left _ _
    have hih0 : 0 ≤ ih := le_max_left _ _
    have hiwa : iw ≤ max 0 aw := by
      apply max_le (le_max_left _ _)
      have := min_le_left (ax + aw) (bx + bw)
      have := le_max_left ax bx
      have := le_max_right (0:ℚ) aw
      linarith
    have hiha : ih ≤ max 0 ah := by
      apply max_le (le_max_left _ _)
      have := min_le_left (ay + ah) (byv + bh)
      have := le_max_left ay byv
      have := le_max_right (0:ℚ) ah
      linarith
    have hiwb : iw ≤ max 0 bw := by
      apply max_le (le_max_left _ _)
      have := min_le_right (ax + aw) (bx + bw)
      have := le_max_right ax bx
      have := le_max_right (0:ℚ) bw
      linarith
    have hihb : ih ≤ max 0 bh := by
      apply max_le (le_max_left _ _)
      have := min_le_right (ay + ah) (byv + bh)
      have := le_max_right ay byv
      have := le_max_right (0:ℚ) bh
      linarith
    have hA : iw * ih ≤ max 0 aw * max 0 ah :=
      mul_le_mul hiwa hiha hih0 (le_trans hiw0 hiwa)
    have hB : iw * ih ≤ max 0 bw * max 0 bh :=
      mul_le_mul hiwb hihb hih0 (le_trans hiw0 hiwb)
    constructor
    · exact div_nonneg (mul_nonneg hiw0 hih0) (by linarith)
    · rw [div_le_one (by linarith)]
      linarith

/-- `iter_overlapping_pairs` (`services/detection.py`): all
`(primary, secondary)` detection pairs whose IoU meets the threshold, paired
with the average of the two scores, in nested-loop order. -/
def iter_overlapping_pairs (primary secondary : List Detection) (min_iou : ℚ) :
    List (Detection × Detection × ℚ) :=
  primary.flatMap (fun det_primary =>
    secondary.filterMap (fun det_secondary =>
      if compute_iou (relative_bbox_tuple det_primary) (relative_bbox_tuple det_secondary) < min_iou
      then none
      else some (det_primary, det_secondary,
        (detection_score det_primary + detection_score det_secondary) / 2)))

/-- One loop iteration of `find_unique_best_pair`: track the best-scoring
pair so far (`none` plays the role of the initial `-inf` score) and count
every qualifying match. -/
def find_unique_best_pair_step
    (acc : Option (Detection × Detection) × Option ℚ × ℕ)
    (t : Detection × Detection × ℚ) :
    Option (Detection × Detection) × Option ℚ × ℕ :=
  let better := match acc.2.1 with
    | none => true
    | some best_score => decide (best_score < t.2.2)
  if better then (some (t.1, t.2.1), some t.2.2, acc.2.2 + 1)
  else (acc.1, acc.2.1, acc.2.2 + 1)

/-- `find_unique_best_pair` (`services/detection.py`): return the highest
scoring pair only when exactly one overlapping match exists. -/
def find_unique_best_pair (primary secondary : List Detection) (min_iou : ℚ) :
    Option (Detection × Detection) :=
  let r := (iter_overlapping_pairs primary secondary min_iou).foldl
    find_unique_best_pair_step (none, none, 0)
  if r.2.2 = 1 then r.1 else none

/-- All `(short-range, full-range)` candidate pairs, in nested-loop order
(spec-side notion for C2). -/
def candidate_pairs (primary secondary : List Detection) :
    List (Detection × Detection) :=
  primary.flatMap (fun a => secondary.map (fun b => (a, b)))

/-- The number of candidate pairs whose IoU reaches the threshold (spec-side
notion for C2). -/
def qualifying_pair_count (primary secondary : List Detection) (min_iou : ℚ) : ℕ :=
  (candidate_pairs primary secondary).countP
    (fun pr => decide (min_iou ≤ compute_iou (relative_bbox_tuple pr.1) (relative_bbox_tuple pr.2)))

/-- For one primary detection, the inner `filterMap` keeps exactly the
qualifying secondaries. -/
theorem iter_inner_length (a : Detection) (secondary : List Detection) (min_iou : ℚ) :
    (secondary.filterMap (fun det_secondary =>
      if compute_iou (relative_bbox_tuple a) (relative_bbox_tuple det_secondary) < min_iou
      then none
      else some (a, det_secondary,
        (detection_score a + detection_score det_secondary) / 2))).length =
    secondary.countP
      (fun b => decide (min_iou ≤ compute_iou (relative_bbox_tuple a) (relative_bbox_tuple b))) := by
  induction secondary with
  | nil => rfl
  | cons b s ih =>
      by_cases h : compute_iou (relative_bbox_tuple a) (relative_bbox_tuple b) < min_iou
      · simp [List.filterMap_cons, List.countP_cons, h, not_le.mpr h, ih]
      · simp [List.filterMap_cons, List.countP_cons, h, not_lt.mp h, ih]

/-- The list produced by `iter_overlapping_pairs` has exactly one entry per
qualifying candidate pair. -/
theorem iter_overlapping_pairs_length (primary secondary : List Detection) (min_iou : ℚ) :
    (iter_overlapping_pairs primary secondary min_iou).length =
      qualifying_pair_count primary secondary min_iou := by
  induction primary with
  | nil => rfl
  | cons a p ih =>
      simp only [iter_overlapping_pairs, qualifying_pair_count, candidate_pairs,
        List.flatMap_cons, List.length_append, List.countP_append] at *
      rw [ih, iter_inner_length, List.countP_map]
      rfl

/-- Each loop step increments the match counter by one. -/
theorem find_unique_best_pair_step_count
    (acc : Option (Detection × Detection) × Option ℚ × ℕ) (t : Detection × Detection × ℚ) :
    (find_unique_best_pair_step acc t).2.2 = acc.2.2 + 1 := by
  unfold find_unique_best_pair_step
  dsimp only
  split <;> rfl

/-- After the loop, the match counter equals the number of processed pairs. -/
theorem find_unique_best_pair_foldl_count (l : List (Detection × Detection × ℚ))
    (acc : Option (Detection × Detection) × Option ℚ × ℕ) :
    (l.foldl find_unique_best_pair_step acc).2.2 = acc.2.2 + l.length := by
  induction l generalizing acc with
  | nil => simp
  | cons t l ih =>
      rw [List.foldl_cons, ih, find_unique_best_pair_step_count]
      simp only [List.length_cons]
      omega

/-- C2: the dual-model matcher returns a pair exactly when exactly one
`(short-range, full-range)` candidate pair has IoU at least the threshold;
with zero qualifying pairs, or with two or more (even equally scoring ones),
it returns `none`. -/
theorem find_unique_best_pair_iff (primary secondary : List Detection) (min_iou : ℚ) :
    (find_unique_best_pair primary secondary min_iou).isSome = true ↔
      qualifying_pair_count primary secondary min_iou = 1 := by
  unfold find_unique_best_pair
  dsimp only
  rw [← iter_overlapping_pairs_length]
  have hc : ((iter_overlapping_pairs primary secondary min_iou).foldl
      find_unique_best_pair_step (none, none, 0)).2.2 =
      0 + (iter_overlapping_pairs primary secondary min_iou).length :=
    find_unique_best_pair_foldl_count _ _
  by_cases h1 : (iter_overlapping_pairs primary secondary min_iou).length = 1
  · obtain ⟨x, hx⟩ := List.length_eq_one.mp h1
    rw [hx]
    simp [find_unique_best_pair_step]
  · rw [if_neg (by omega)]
    simp [h1]

/-- `EMACalculator.calculate_ema` (`services/heuristics/ema_calculator.py`):
`(1 - alpha) * old_value + alpha * new_value`. -/
def calculate_ema (alpha old_value new_value : ℚ) : ℚ :=
  (1 - alpha) * old_value + alpha * new_value

/-- `EMACalculator.update_bucket`, restricted to a single
`(bucket_key, parameter_name)` cell: the state is the stored EMA value for
that cell (`none` when the parameter is not yet in the bucket); the result is
the value written back and returned. -/
def update_bucket (alpha : ℚ) (stored : Option ℚ) (new_value : ℚ) : ℚ :=
  match stored with
  | some old_value => calculate_ema alpha old_value new_value
  | none => new_value

/-- `HeuristicsDB.update_ema_parameter` (`services/heuristics/database.py`),
restricted to a single `(aspect_class, zoom_level, parameter_name)` row: the
state is the `(value, sample_count)` row (`none` when no row exists); the
result is the row after the `UPDATE` (EMA, count incremented) or `INSERT`
(incoming value, count 1). -/
def update_ema_parameter (alpha : ℚ) (row : Option (ℚ × ℕ)) (new_value : ℚ) : ℚ × ℕ :=
  match row with
  | some (old_value, sample_count) =>
      ((1 - alpha) * old_value + alpha * new_value, sample_count + 1)
  | none => (new_value, 1)

/-- Drive the in-memory EMA cell with a sequence of observations, starting
from an empty bucket. -/
def run_update_bucket (alpha : ℚ) (obs : List ℚ) : Option ℚ :=
  obs.foldl (fun stored v => some (update_bucket alpha stored v)) none

/-- Drive the database row with a sequence of observations, starting from an
absent row. -/
def run_update_ema_parameter (alpha : ℚ) (obs : List ℚ) : Option (ℚ × ℕ) :=
  obs.foldl (fun row v => some (update_ema_parameter alpha row v)) none

/-- From matching seeds, the database fold tracks the in-memory fold, with the
sample count advancing by one per observation. -/
theorem run_update_ema_parameter_aux (alpha : ℚ) (obs : List ℚ) (v0 : ℚ) (n0 : ℕ) :
    obs.foldl (fun row v => some (update_ema_parameter alpha row v)) (some (v0, n0)) =
      (obs.foldl (fun stored v => some (update_bucket alpha stored v)) (some v0)).map
        (fun x => (x, n0 + obs.length)) := by
  induction obs generalizing v0 n0 with
  | nil => simp
  | cons v l ih =>
      rw [List.foldl_cons, List.foldl_cons]
      have e1 : update_ema_parameter alpha (some (v0, n0)) v =
          ((1 - alpha) * v0 + alpha * v, n0 + 1) := rfl
      have e2 : update_bucket alpha (some v0) v = (1 - alpha) * v0 + alpha * v := rfl
      rw [e1, e2, ih]
      simp only [List.length_cons]
      rw [show n0 + (l.length + 1) = (n0 + 1) + l.length from by omega]

/-- C4: for every smoothing factor and every observation sequence on one
`(bucket, parameter)`, the in-memory `update_bucket` and the persistent
`update_ema_parameter` compute the same value sequence: the database row holds
exactly the in-memory EMA value together with a sample count equal to the
number of observations, the first observation seeds the value directly (count
1), and each further observation applies `(1-α)·old + α·incoming`. -/
theorem ema_memory_db_equiv (alpha : ℚ) (obs : List ℚ) (v : ℚ) :
    run_update_ema_parameter alpha obs =
      (run_update_bucket alpha obs).map (fun x => (x, obs.length)) ∧
    run_update_bucket alpha (obs ++ [v]) =
      some (match run_update_bucket alpha obs with
            | none => v
            | some old_value => (1 - alpha) * old_value + alpha * v) := by
  constructor
  · cases obs with
    | nil => rfl
    | cons w l =>
        unfold run_update_ema_parameter run_update_bucket
        rw [List.foldl_cons, List.foldl_cons]
        have e1 : update_ema_parameter alpha none w = (w, 1) := rfl
        have e2 : update_bucket alpha none w = w := rfl
        rw [e1, e2, run_update_ema_parameter_aux]
        simp only [List.length_cons]
        rw [show 1 + l.length = l.length + 1 from by omega]
  · unfold run_update_bucket
    rw [List.foldl_append]
    cases h : obs.foldl (fun stored v => some (update_bucket alpha stored v)) none with
    | none => simp [update_bucket]
    | some old_value => simp [update_bucket, calculate_ema]

/-- `HeuristicsDB.cleanup_old_samples` (`services/heuristics/database.py`):
`DELETE FROM samples WHERE julianday('now') - julianday(created_at) > days_to_keep`,
returning `cursor.rowcount`. The samples table is modelled as the list of the
rows' `julianday(created_at)` values (rationals), `now` is `julianday('now')`
at the time of the call; the result is the remaining table and the count of
deleted rows. -/
def cleanup_old_samples (now : ℚ) (days_to_keep : ℤ) (samples : List ℚ) :
    List ℚ × ℕ :=
  ((samples.filter (fun created_at => decide (¬ ((days_to_keep : ℚ) < now - created_at)))),
   (samples.filter (fun created_at => decide ((days_to_keep : ℚ) < now - created_at))).length)

/-- C7 counterexample: a single committed sample whose stored Julian timestamp
equals the current Julian instant (difference exactly 0) is NOT deleted by
`cleanup_old_samples(days_to_keep=0)` — the SQL comparison is strict `> 0` —
so the call keeps the row and returns 0, not 1. -/
theorem cleanup_old_samples_counterexample :
    cleanup_old_samples 2460000 0 [2460000] = ([2460000], 0) := by
  have h : ¬ (((0 : ℤ) : ℚ) < 2460000 - 2460000) := by norm_num
  simp [cleanup_old_samples, List.filter, h]

/-- C7 (amended): a single sample is deleted by a 0-day cutoff (table emptied,
rowcount 1) whenever its stored Julian timestamp is strictly earlier than the
current Julian instant; the difference-zero row of the counterexample is the
only exception to the original claim. -/
theorem cleanup_old_samples_zero_days (now created_at : ℚ) (h : created_at < now) :
    cleanup_old_samples now 0 [created_at] = ([], 1) := by
  have hlt : ((0 : ℤ) : ℚ) < now - created_at := by
    push_cast
    linarith
  have d1 : decide (¬ (((0 : ℤ) : ℚ) < now - created_at)) = false :=
    decide_eq_false (not_not_intro hlt)
  have d2 : decide (((0 : ℤ) : ℚ) < now - created_at) = true := decide_eq_true hlt
  unfold cleanup_old_samples
  simp only [List.filter_cons, List.filter_nil, d1, d2]
  rfl

/-- Witness for the amended C7: a sample one Julian day old. -/
theorem cleanup_old_samples_zero_days_witness :
    cleanup_old_samples 2460001 0 [2460000] = ([], 1) :=
  cleanup_old_samples_zero_days 2460001 2460000 (by norm_num)

/-- Manual crop adjustment (`services/crop_processor.py`, `ManualAdjustment`):
integer offsets and a float scale factor (modelled as `ℚ`). -/
structure ManualAdjustment where
  offset_x : ℤ
  offset_y : ℤ
  scale : ℚ
  deriving DecidableEq

/-- Truncation toward zero of a rational, modelling Python `int(float)`. -/
def rat_trunc (q : ℚ) : ℤ := Int.tdiv q.num q.den

/-- `ManualAdjustment.apply_to_crop`: scale the dimensions (truncating), keep
the crop centred by the floor-division offset, add the manual offsets, and
adjust to image bounds. -/
def ManualAdjustment.apply_to_crop (adj : ManualAdjustment) (crop : CropBox)
    (image_width image_height : ℤ) : CropBox :=
  let new_width := rat_trunc ((crop.width : ℚ) * adj.scale)
  let new_height := rat_trunc ((crop.height : ℚ) * adj.scale)
  let scale_offset_x := Int.fdiv (crop.width - new_width) 2
  let scale_offset_y := Int.fdiv (crop.height - new_height) 2
  let new_x := crop.x + scale_offset_x + adj.offset_x
  let new_y := crop.y + scale_offset_y + adj.offset_y
  (CropBox.mk new_x new_y new_width new_height crop.preset_type).adjust_to_bounds
    image_width image_height

/-- `validate_manual_adjustment` (`services/crop_processor.py`): scale limit
checks, then a minimum-size check on the applied result (the logged boundary
warnings do not affect the returned value). -/
def validate_manual_adjustment (adjustment : ManualAdjustment) (crop : CropBox)
    (image_width image_height : ℤ) : Bool × Option String :=
  if adjustment.scale < 1/2 then (false, some "Scale cannot be less than 0.5")
  else if 2 < adjustment.scale then (false, some "Scale cannot be greater than 2.0")
  else if (adjustment.apply_to_crop crop image_width image_height).width < 100 ∨
      (adjustment.apply_to_crop crop image_width image_height).height < 100 then
    (false, some "Adjusted crop is too small")
  else (true, none)

/-- C6: `validate_manual_adjustment` rejects `scale = 0.49` with a message
containing `"0.5"`, rejects `scale = 2.01` with a message containing `"2.0"`,
rejects any in-range scale whose applied result is narrower or shorter than
100 pixels with a message containing `"too small"`, and accepts scale exactly
`0.5` or `2.0` when the applied result is at least 100 pixels in each
dimension, returning `(true, none)`. -/
theorem validate_manual_adjustment_spec (adjustment : ManualAdjustment) (crop : CropBox)
    (image_width image_height : ℤ) :
    (adjustment.scale = 49/100 →
      ∃ msg, validate_manual_adjustment adjustment crop image_width image_height =
          (false, some msg) ∧ ∃ s t, msg = s ++ "0.5" ++ t) ∧
    (adjustment.scale = 201/100 →
      ∃ msg, validate_manual_adjustment adjustment crop image_width image_height =
          (false, some msg) ∧ ∃ s t, msg = s ++ "2.0" ++ t) ∧
    (1/2 ≤ adjustment.scale → adjustment.scale ≤ 2 →
      ((adjustment.apply_to_crop crop image_width image_height).width < 100 ∨
        (adjustment.apply_to_crop crop image_width image_height).height < 100) →
      ∃ msg, validate_manual_adjustment adjustment crop image_width image_height =
          (false, some msg) ∧ ∃ s t, msg = s ++ "too small" ++ t) ∧
    ((adjustment.scale = 1/2 ∨ adjustment.scale = 2) →
      100 ≤ (adjustment.apply_to_crop crop image_width image_height).width →
      100 ≤ (adjustment.apply_to_crop crop image_width image_height).height →
      validate_manual_adjustment adjustment crop image_width image_height = (true, none)) := by
  refine ⟨?_, ?_, ?_, ?_⟩
  · intro hs
    refine ⟨"Scale cannot be less than 0.5", ?_, "Scale cannot be less than ", "", by decide⟩
    unfold validate_manual_adjustment
    rw [if_pos (by rw [hs]; norm_num)]
  · intro hs
    refine ⟨"Scale cannot be greater than 2.0", ?_, "Scale cannot be greater than ", "", by decide⟩
    unfold validate_manual_adjustment
    rw [if_neg (by rw [hs]; norm_num), if_pos (by rw [hs]; norm_num)]
  · intro h1 h2 h3
    refine ⟨"Adjusted crop is too small", ?_, "Adjusted crop is ", "", by decide⟩
    unfold validate_manual_adjustment
    rw [if_neg (by linarith), if_neg (by linarith), if_pos h3]
  · intro hs h1 h2
    have hlo : ¬ (adjustment.scale < 1/2) := by rcases hs with h | h <;> rw [h] <;> norm_num
    have hhi : ¬ (2 < adjustment.scale) := by rcases hs with h | h <;> rw [h] <;> norm_num
    unfold validate_manual_adjustment
    rw [if_neg hlo, if_neg hhi, if_neg (by omega)]

/-- Witness for C6: the four cases at concrete inputs — a 400×400 crop in a
1000×1000 image with scales 0.49, 2.01 and 0.5, and a 150×150 crop with scale
0.5 whose applied result is 75×75 (too small). -/
theorem validate_manual_adjustment_spec_witness :
    (∃ msg, validate_manual_adjustment (ManualAdjustment.mk 0 0 (49/100))
        (CropBox.mk 0 0 400 400 .headshot) 1000 1000 = (false, some msg) ∧
      ∃ s t, msg = s ++ "0.5" ++ t) ∧
    (∃ msg, validate_manual_adjustment (ManualAdjustment.mk 0 0 (201/100))
        (CropBox.mk 0 0 400 400 .headshot) 1000 1000 = (false, some msg) ∧
      ∃ s t, msg = s ++ "2.0" ++ t) ∧
    (∃ msg, validate_manual_adjustment (ManualAdjustment.mk 0 0 (1/2))
        (CropBox.mk 0 0 150 150 .headshot) 1000 1000 = (false, some msg) ∧
      ∃ s t, msg = s ++ "too small" ++ t) ∧
    validate_manual_adjustment (ManualAdjustment.mk 0 0 (1/2))
        (CropBox.mk 0 0 400 400 .headshot) 1000 1000 = (true, none) :=
  ⟨(validate_manual_adjustment_spec (ManualAdjustment.mk 0 0 (49/100))
      (CropBox.mk 0 0 400 400 .headshot) 1000 1000).1 rfl,
   (validate_manual_adjustment_spec (ManualAdjustment.mk 0 0 (201/100))
      (CropBox.mk 0 0 400 400 .headshot) 1000 1000).2.1 rfl,
   (validate_manual_adjustment_spec (ManualAdjustment.mk 0 0 (1/2))
      (CropBox.mk 0 0 150 150 .headshot) 1000 1000).2.2.1 (by norm_num) (by norm_num)
      (by norm_num [ManualAdjustment.apply_to_crop, rat_trunc, CropBox.adjust_to_bounds, Int.fdiv_eq_ediv]),
   (validate_manual_adjustment_spec (ManualAdjustment.mk 0 0 (1/2))
      (CropBox.mk 0 0 400 400 .headshot) 1000 1000).2.2.2 (Or.inl rfl)
      (by norm_num [ManualAdjustment.apply_to_crop, rat_trunc, CropBox.adjust_to_bounds, Int.fdiv_eq_ediv])
      (by norm_num [ManualAdjustment.apply_to_crop, rat_trunc, CropBox.adjust_to_bounds, Int.fdiv_eq_ediv])⟩

/-- Python's Unicode-aware `str.isalnum`, as called by `sanitize_filename`
(`utils/file_utils.py`), modelled on the code points below U+0100: ASCII
letters and digits, plus the Latin-1 Supplement alphanumerics (ordinal
indicators `ª` `º`, superscripts `²` `³` `¹`, micro sign `µ`, vulgar fractions
`¼` `½` `¾`, and the accented letters `À`–`ÿ` excluding `×` and `÷`). Code
points at or above U+0100 are outside the model and are not used by any
theorem below. -/
def py_isalnum (c : Char) : Bool :=
  c.isAlphanum ||
    decide (c.toNat ∈ ([0xAA, 0xB2, 0xB3, 0xB5, 0xB9, 0xBA, 0xBC, 0xBD, 0xBE] : List ℕ)) ||
    decide (0xC0 ≤ c.toNat ∧ c.toNat ≤ 0xFF ∧ c.toNat ≠ 0xD7 ∧ c.toNat ≠ 0xF7)

/-- `os.path.basename` on POSIX, as used by `sanitize_filename`: the suffix
of the string after the last `/`. -/
def basename (filename : String) : String :=
  String.mk (filename.toList.foldl (fun acc c => if c = '/' then [] else acc ++ [c]) [])

/-- `sanitize_filename` (`utils/file_utils.py`): strip path components, then
keep each character that is Python-alphanumeric or in `".-_"`, replacing every
other character by `_`. -/
def sanitize_filename (filename : String) : String :=
  String.mk ((basename filename).toList.map
    (fun c => if py_isalnum c ∨ c = '.' ∨ c = '-' ∨ c = '_' then c else '_'))

/-- The spec's allowed output alphabet `[A-Za-z0-9.\-_]` (ASCII letters and
digits, dot, hyphen, underscore). -/
def spec_allowed_char (c : Char) : Bool :=
  c.isAlphanum || c == '.' || c == '-' || c == '_'

/-- `sanitize_filename` as the spec words it: the basename with every
character outside `[A-Za-z0-9.\-_]` replaced by `_`. -/
def sanitize_filename_spec (filename : String) : String :=
  String.mk ((basename filename).toList.map
    (fun c => if spec_allowed_char c then c else '_'))

/-- C8 counterexample: Python's `isalnum` is Unicode-aware, so the non-ASCII
letter `é` (U+00E9) is kept verbatim: the output of `sanitize_filename` on
`"é.png"` is `"é.png"` itself, which contains a character outside
`[A-Za-z0-9.\-_]`, refuting the ASCII-only claim. -/
theorem sanitize_filename_counterexample :
    sanitize_filename "é.png" = "é.png" ∧
      (sanitize_filename "é.png").toList.all spec_allowed_char = false := by
  constructor <;> decide

/-- On ASCII characters the modelled Python `isalnum` agrees with the ASCII
`[A-Za-z0-9]` test. -/
theorem py_isalnum_ascii {c : Char} (h : c.toNat < 128) :
    py_isalnum c = c.isAlphanum := by
  unfold py_isalnum
  have h1 : decide (c.toNat ∈ ([0xAA, 0xB2, 0xB3, 0xB5, 0xB9, 0xBA, 0xBC, 0xBD, 0xBE] : List ℕ)) =
      false := by
    simp
    omega
  have h2 : decide (0xC0 ≤ c.toNat ∧ c.toNat ≤ 0xFF ∧ c.toNat ≠ 0xD7 ∧ c.toNat ≠ 0xF7) =
      false := by
    simp
    omega
  rw [h1, h2, Bool.or_false, Bool.or_false]

/-- Every character of the basename comes from the input string. -/
theorem basename_mem {filename : String} {c : Char} (hc : c ∈ (basename filename).toList) :
    c ∈ filename.toList := by
  have hc' : c ∈ filename.toList.foldl (fun acc c => if c = '/' then [] else acc ++ [c]) [] := hc
  suffices h : ∀ (l acc : List Char),
      c ∈ l.foldl (fun acc c => if c = '/' then [] else acc ++ [c]) acc →
        c ∈ acc ∨ c ∈ l by
    rcases h filename.toList [] hc' with h' | h'
    · cases h'
    · exact h'
  intro l
  induction l with
  | nil => intro acc h; exact Or.inl h
  | cons a l ih =>
      intro acc h
      rcases ih _ h with h' | h'
      · dsimp only at h'
        by_cases ha : a = '/'
        · rw [if_pos ha] at h'
          cases h'
        · rw [if_neg ha] at h'
          rcases List.mem_append.mp h' with h'' | h''
          · exact Or.inl h''
          · rw [List.mem_singleton] at h''
            exact Or.inr (by rw [h'']; exact List.mem_cons_self _ _)
      · exact Or.inr (List.mem_cons_of_mem _ h')

/-- C8 (amended): for every input consisting of ASCII characters,
`sanitize_filename` returns exactly the basename with every character outside
`[A-Za-z0-9.\-_]` replaced by `_`, and its output contains only characters of
that ASCII class; on general Unicode input Python's `isalnum` also keeps
non-ASCII alphanumeric characters, so the output need not be ASCII. -/
theorem sanitize_filename_ascii (filename : String)
    (h : ∀ c ∈ filename.toList, c.toNat < 128) :
    sanitize_filename filename = sanitize_filename_spec filename ∧
      ∀ c ∈ (sanitize_filename filename).toList, spec_allowed_char c = true := by
  have hchar : ∀ c ∈ (basename filename).toList,
      (if py_isalnum c ∨ c = '.' ∨ c = '-' ∨ c = '_' then c else '_') =
        (if spec_allowed_char c then c else '_') := by
    intro c hc
    have hascii : c.toNat < 128 := h c (basename_mem hc)
    have hcond : (py_isalnum c ∨ c = '.' ∨ c = '-' ∨ c = '_') ↔ spec_allowed_char c = true := by
      unfold spec_allowed_char
      rw [py_isalnum_ascii hascii]
      simp [Bool.or_eq_true, or_assoc]
    by_cases hgood : spec_allowed_char c = true
    · rw [if_pos (hcond.mpr hgood), if_pos hgood]
    · rw [if_neg (fun hx => hgood (hcond.mp hx)), if_neg hgood]
  have heq : sanitize_filename filename = sanitize_filename_spec filename := by
    unfold sanitize_filename sanitize_filename_spec
    exact congrArg String.mk (List.map_congr_left hchar)
  refine ⟨heq, ?_⟩
  intro c hc
  rw [heq] at hc
  have hc' : c ∈ (basename filename).toList.map
      (fun c => if spec_allowed_char c then c else '_') := hc
  obtain ⟨d, hd, hcd⟩ := List.mem_map.mp hc'
  by_cases hgood : spec_allowed_char d = true
  · rw [if_pos hgood] at hcd
    rw [← hcd]
    exact hgood
  · rw [if_neg hgood] at hcd
    rw [← hcd]
    decide

/-- Witness for the amended C8: an ASCII filename with a directory prefix,
spaces and parentheses. -/
theorem sanitize_filename_ascii_witness :
    sanitize_filename "dir/my file(1).png" = sanitize_filename_spec "dir/my file(1).png" ∧
      ∀ c ∈ (sanitize_filename "dir/my file(1).png").toList, spec_allowed_char c = true :=
  sanitize_filename_ascii "dir/my file(1).png" (by decide)

end QuickCrop
